import Mathlib

/-!
Shallow embedding of the line-classification core of the sloc-counter
repository (src/src/main.cpp): the trimming helpers, the CodeParser
state machine, the per-file aggregation performed in main, and the
sort_files comparator. Lines are represented as lists of characters and
counters as natural numbers.
-/

namespace Sloc

/-- The whitespace set used by the trimming helpers in main.cpp: the
default argument holds space, tab, newline, carriage return, form feed
and vertical tab. -/
def isWs (c : Char) : Bool :=
  c == ' ' || c == '\t' || c == '\n' || c == '\r' || c == '\x0c' || c == '\x0b'

/-- ltrim (main.cpp:83): erase the longest whitespace run at the front. -/
def ltrim (s : List Char) : List Char := s.dropWhile isWs

/-- rtrim (main.cpp:96): erase the longest whitespace run at the back. -/
def rtrim (s : List Char) : List Char := (s.reverse.dropWhile isWs).reverse

/-- trim (main.cpp:109): rtrim after ltrim. -/
def trim (s : List Char) : List Char := rtrim (ltrim s)

/-- std::string::find(pat) != npos: pat occurs as a contiguous substring. -/
def hasSub (pat : List Char) : List Char → Bool
  | [] => pat.isEmpty
  | c :: rest => pat.isPrefixOf (c :: rest) || hasSub pat rest

/-- The CodeParser state (main.cpp:114-123): the four counters and the
two cross-line flags. -/
structure CodeParser where
  blank_lines : Nat
  code_lines : Nat
  comment_lines : Nat
  doc_comment_lines : Nat
  in_block_comment : Bool
  in_doc_block_comment : Bool
deriving DecidableEq

/-- A freshly constructed CodeParser: all counters zero, both flags false. -/
def initParser : CodeParser := ⟨0, 0, 0, 0, false, false⟩

/-- CodeParser::parse_line (main.cpp:125-186), branch for branch:
blank check, `///`/`//!` prefix, `/**`/`/*!` prefix (which sets the doc
flag unconditionally), the in-progress doc block, the in-progress plain
block, the `//` prefix, the `/*` prefix (with a same-line `*/` search
starting at position 2), and the code fallthrough. -/
def parse_line (p : CodeParser) (line : List Char) : CodeParser :=
  let trimmed := trim line
  if trimmed.isEmpty then
    { p with blank_lines := p.blank_lines + 1 }
  else if "///".data.isPrefixOf trimmed || "//!".data.isPrefixOf trimmed then
    { p with doc_comment_lines := p.doc_comment_lines + 1 }
  else if "/**".data.isPrefixOf trimmed || "/*!".data.isPrefixOf trimmed then
    { p with
      doc_comment_lines := p.doc_comment_lines + 1
      in_doc_block_comment := true }
  else if p.in_doc_block_comment then
    { p with
      doc_comment_lines := p.doc_comment_lines + 1
      in_doc_block_comment :=
        if hasSub "*/".data trimmed then false else p.in_doc_block_comment }
  else if p.in_block_comment then
    { p with
      comment_lines := p.comment_lines + 1
      in_block_comment :=
        if hasSub "*/".data trimmed then false else p.in_block_comment }
  else if "//".data.isPrefixOf trimmed then
    { p with comment_lines := p.comment_lines + 1 }
  else if "/*".data.isPrefixOf trimmed then
    { p with
      comment_lines := p.comment_lines + 1
      in_block_comment :=
        if hasSub "*/".data (trimmed.drop 2) then p.in_block_comment else true }
  else
    { p with code_lines := p.code_lines + 1 }

/-- The per-file loop of main (main.cpp:586-588): feed the lines in
order to one parser. -/
def parse_lines (p : CodeParser) : List (List Char) → CodeParser
  | [] => p
  | l :: ls => parse_lines (parse_line p l) ls

/-- lang_type_e (main.cpp:28-34). -/
inductive lang_type_e
  | C
  | CPP
  | H
  | HPP
  | UNDEF
deriving DecidableEq

/-- The underlying integer value of a lang_type_e enumerator, used when
the enum is compared with `<` in sort_files. -/
def lang_value : lang_type_e → Nat
  | .C => 0
  | .CPP => 1
  | .H => 2
  | .HPP => 3
  | .UNDEF => 4

/-- FileInfo (main.cpp:42-62): the per-file record filled in by main. -/
structure FileInfo where
  filename : List Char
  type : lang_type_e
  n_blank : Nat
  n_comments : Nat
  n_doc : Nat
  n_loc : Nat
  n_lines : Nat
deriving DecidableEq

/-- The aggregation main performs per file (main.cpp:584-594): run a
fresh CodeParser over the lines, copy the four counters out, and set
n_lines to their sum. -/
def scan_file (name : List Char) (t : lang_type_e) (lines : List (List Char)) : FileInfo :=
  let p := parse_lines initParser lines
  { filename := name
    type := t
    n_blank := p.blank_lines
    n_comments := p.comment_lines
    n_doc := p.doc_comment_lines
    n_loc := p.code_lines
    n_lines := p.blank_lines + p.comment_lines + p.doc_comment_lines + p.code_lines }

/-- The sum of the four per-category counters of a parser state. -/
def total_count (p : CodeParser) : Nat :=
  p.blank_lines + p.comment_lines + p.doc_comment_lines + p.code_lines

/-- Lexicographic std::string operator< on character values. -/
def strLt : List Char → List Char → Bool
  | [], [] => false
  | [], _ :: _ => true
  | _ :: _, [] => false
  | a :: as, b :: bs =>
    if a.toNat < b.toNat then true
    else if b.toNat < a.toNat then false
    else strLt as bs

/-- The comparator built inside sort_files (main.cpp:418-437): one case
per sort key, ascending or descending, defaulting to true. -/
def file_comp (ascending : Bool) (criteria : Char) (a b : FileInfo) : Bool :=
  if criteria == 'f' then
    if ascending then strLt a.filename b.filename else strLt b.filename a.filename
  else if criteria == 't' then
    if ascending then decide (lang_value a.type < lang_value b.type)
    else decide (lang_value b.type < lang_value a.type)
  else if criteria == 'c' then
    if ascending then decide (a.n_comments < b.n_comments)
    else decide (b.n_comments < a.n_comments)
  else if criteria == 'd' then
    if ascending then decide (a.n_doc < b.n_doc) else decide (b.n_doc < a.n_doc)
  else if criteria == 'b' then
    if ascending then decide (a.n_blank < b.n_blank) else decide (b.n_blank < a.n_blank)
  else if criteria == 's' then
    if ascending then decide (a.n_loc < b.n_loc) else decide (b.n_loc < a.n_loc)
  else if criteria == 'a' then
    if ascending then decide (a.n_lines < b.n_lines) else decide (b.n_lines < a.n_lines)
  else
    true

/-- Insert an element into a list in front of the first element it
compares before. -/
def insert_comp (comp : FileInfo → FileInfo → Bool) (x : FileInfo) :
    List FileInfo → List FileInfo
  | [] => [x]
  | y :: ys => if comp x y then x :: y :: ys else y :: insert_comp comp x ys

/-- Insertion sort with a strict comparator. -/
def sort_by_comp (comp : FileInfo → FileInfo → Bool) : List FileInfo → List FileInfo
  | [] => []
  | x :: xs => insert_comp comp x (sort_by_comp comp xs)

/-- sort_files (main.cpp:416-439). std::sort, which returns a
permutation sorted under the strict comparator, is modelled by an
insertion sort with the same comparator; on the strict weak orderings
used here both produce a comparator-sorted permutation, and on inputs
with pairwise distinct keys that output is unique. -/
def sort_files (files : List FileInfo) (method : Bool × Char) : List FileInfo :=
  sort_by_comp (fun a b => file_comp method.1 method.2 a b) files

/-- The trimmed text of a line begins with a Doxygen block opener. -/
def docBlockStart (line : List Char) : Bool :=
  "/**".data.isPrefixOf (trim line) || "/*!".data.isPrefixOf (trim line)

/-- No line whose trimmed text begins with `/**` or `/*!` is fed while
in_block_comment is set, at any step of the run. -/
def noDocOpenerInBlock (p : CodeParser) : List (List Char) → Bool
  | [] => true
  | l :: ls =>
    !(p.in_block_comment && docBlockStart l) && noDocOpenerInBlock (parse_line p l) ls

/-- At most one of the two block-comment flags is set. -/
def flagsExclusive (p : CodeParser) : Bool :=
  !(p.in_block_comment && p.in_doc_block_comment)

/-- A two-character pattern that fails to be a prefix rules out every
three-character extension of it. -/
theorem isPrefixOf_extend (c1 c2 c3 : Char) (t : List Char)
    (h : [c1, c2].isPrefixOf t = false) : [c1, c2, c3].isPrefixOf t = false := by
  match t with
  | [] => rfl
  | [a] => simp [List.isPrefixOf]
  | a :: b :: rest =>
    cases g1 : c1 == a <;> cases g2 : c2 == b <;> simp_all [List.isPrefixOf]

/-- In Normal state, a nonempty trimmed line that does not begin with
`//` or `/*` falls through every branch to the code counter. -/
theorem parse_line_code_branch (p : CodeParser) (line : List Char)
    (hb : p.in_block_comment = false) (hd : p.in_doc_block_comment = false)
    (hne : trim line ≠ [])
    (h1 : "//".data.isPrefixOf (trim line) = false)
    (h2 : "/*".data.isPrefixOf (trim line) = false) :
    parse_line p line = { p with code_lines := p.code_lines + 1 } := by
  have hemp : (trim line).isEmpty = false := by
    cases h : trim line with
    | nil => exact absurd h hne
    | cons a as => rfl
  have h3 : "///".data.isPrefixOf (trim line) = false := isPrefixOf_extend '/' '/' '/' _ h1
  have h4 : "//!".data.isPrefixOf (trim line) = false := isPrefixOf_extend '/' '/' '!' _ h1
  have h5 : "/**".data.isPrefixOf (trim line) = false := isPrefixOf_extend '/' '*' '*' _ h2
  have h6 : "/*!".data.isPrefixOf (trim line) = false := isPrefixOf_extend '/' '*' '!' _ h2
  simp [parse_line, hemp, h1, h2, h3, h4, h5, h6, hb, hd]

/-- One parse_line call adds exactly one to the sum of the counters. -/
theorem total_count_parse_line (p : CodeParser) (l : List Char) :
    total_count (parse_line p l) = total_count p + 1 := by
  obtain ⟨bl, cd, cm, dc, ib, ide⟩ := p
  simp only [parse_line]
  split_ifs <;> simp [total_count] <;> omega

/-- One parse_line call leaves each counter unchanged or adds one. -/
theorem parse_line_counter_step (p : CodeParser) (l : List Char) :
    ((parse_line p l).blank_lines = p.blank_lines ∨
      (parse_line p l).blank_lines = p.blank_lines + 1) ∧
    ((parse_line p l).code_lines = p.code_lines ∨
      (parse_line p l).code_lines = p.code_lines + 1) ∧
    ((parse_line p l).comment_lines = p.comment_lines ∨
      (parse_line p l).comment_lines = p.comment_lines + 1) ∧
    ((parse_line p l).doc_comment_lines = p.doc_comment_lines ∨
      (parse_line p l).doc_comment_lines = p.doc_comment_lines + 1) := by
  obtain ⟨bl, cd, cm, dc, ib, ide⟩ := p
  simp only [parse_line]
  split_ifs <;> simp

/-- Running the parser over a line list grows the counter sum by the
number of lines. -/
theorem total_count_parse_lines (ls : List (List Char)) (p : CodeParser) :
    total_count (parse_lines p ls) = total_count p + ls.length := by
  induction ls generalizing p with
  | nil => rfl
  | cons l ls ih =>
    rw [parse_lines, ih, total_count_parse_line, List.length_cons]
    omega

/-- One guarded step preserves flag exclusivity. -/
theorem step_exclusive (p : CodeParser) (l : List Char)
    (h1 : flagsExclusive p = true)
    (h2 : (p.in_block_comment && docBlockStart l) = false) :
    flagsExclusive (parse_line p l) = true := by
  obtain ⟨bl, cd, cm, dc, ib, ide⟩ := p
  simp only [flagsExclusive, docBlockStart] at *
  simp only [parse_line]
  split_ifs <;> simp_all

/-- A guarded run from an exclusive state stays exclusive. -/
theorem run_exclusive (ls : List (List Char)) (p : CodeParser)
    (h1 : flagsExclusive p = true) (h2 : noDocOpenerInBlock p ls = true) :
    flagsExclusive (parse_lines p ls) = true := by
  induction ls generalizing p with
  | nil => exact h1
  | cons l ls ih =>
    simp only [noDocOpenerInBlock, Bool.and_eq_true, Bool.not_eq_true'] at h2
    exact ih (parse_line p l) (step_exclusive p l h1 h2.1) h2.2

/-- Feeding a concatenation is feeding the parts in turn. -/
theorem parse_lines_append (a b : List (List Char)) (p : CodeParser) :
    parse_lines p (a ++ b) = parse_lines (parse_lines p a) b := by
  induction a generalizing p with
  | nil => rfl
  | cons l ls ih => simp [parse_lines, ih]

/-- The guard over a concatenation splits at the intermediate state. -/
theorem noDocOpenerInBlock_append (a b : List (List Char)) (p : CodeParser) :
    noDocOpenerInBlock p (a ++ b) =
      (noDocOpenerInBlock p a && noDocOpenerInBlock (parse_lines p a) b) := by
  induction a generalizing p with
  | nil => simp [noDocOpenerInBlock, parse_lines]
  | cons l ls ih => simp [noDocOpenerInBlock, parse_lines, ih, Bool.and_assoc]

/-- C1 (as stated) is false on the code: fed while in_block_comment is
set, the line `/// b */` is counted as a doc comment, not a comment, and
the closing marker it carries does not clear the flag. -/
theorem C1_counterexample :
    (parse_lines initParser ["/* a".data, "/// b */".data]).comment_lines = 1 ∧
    (parse_lines initParser ["/* a".data, "/// b */".data]).doc_comment_lines = 1 ∧
    (parse_lines initParser ["/* a".data, "/// b */".data]).in_block_comment = true := by
  decide

/-- C1 (amended): a non-blank line fed while a doc block (respectively a
plain block) comment is open is attributed to DocComment (respectively
Comment), scanned for `*/` with the flag cleared exactly when the closer
occurs, and nothing else changes — provided its trimmed text does not
begin with `///`, `//!`, `/**` or `/*!`, which the prefix checks
intercept first. -/
theorem C1_block_state_attribution (p : CodeParser) (line : List Char)
    (hne : trim line ≠ [])
    (h1 : "///".data.isPrefixOf (trim line) = false)
    (h2 : "//!".data.isPrefixOf (trim line) = false)
    (h3 : "/**".data.isPrefixOf (trim line) = false)
    (h4 : "/*!".data.isPrefixOf (trim line) = false) :
    (p.in_doc_block_comment = true →
      parse_line p line = { p with
        doc_comment_lines := p.doc_comment_lines + 1
        in_doc_block_comment := !(hasSub "*/".data (trim line)) }) ∧
    (p.in_doc_block_comment = false → p.in_block_comment = true →
      parse_line p line = { p with
        comment_lines := p.comment_lines + 1
        in_block_comment := !(hasSub "*/".data (trim line)) }) := by
  have hemp : (trim line).isEmpty = false := by
    cases h : trim line with
    | nil => exact absurd h hne
    | cons a as => rfl
  constructor
  · intro hd
    cases hs : hasSub "*/".data (trim line) <;>
      simp [parse_line, hemp, h1, h2, h3, h4, hd, hs]
  · intro hd hb
    cases hs : hasSub "*/".data (trim line) <;>
      simp [parse_line, hemp, h1, h2, h3, h4, hd, hb, hs]

/-- Witness for C1 (amended): a parser inside a plain block comment fed
`end */` counts one more comment line and clears the flag. -/
theorem C1_block_state_attribution_witness :
    parse_line ⟨0, 0, 1, 0, true, false⟩ "end */".data = ⟨0, 0, 2, 0, false, false⟩ := by
  have h := C1_block_state_attribution ⟨0, 0, 1, 0, true, false⟩ "end */".data
    (by decide) (by decide) (by decide) (by decide) (by decide)
  rw [h.2 rfl rfl]
  decide

/-- C2 (as stated) is false on the code: after `/* a` opens a plain
block comment, the line `/** b` sets the doc flag without clearing the
block flag, so both flags are true. -/
theorem C2_counterexample :
    (parse_lines initParser ["/* a".data, "/** b".data]).in_block_comment = true ∧
    (parse_lines initParser ["/* a".data, "/** b".data]).in_doc_block_comment = true := by
  decide

/-- C2 (amended): after each call, at most one of the two flags is true,
provided no line whose trimmed text begins with `/**` or `/*!` was fed
while in_block_comment was set. -/
theorem C2_flags_exclusive_guarded (ls rest : List (List Char))
    (h : noDocOpenerInBlock initParser (ls ++ rest) = true) :
    flagsExclusive (parse_lines initParser ls) = true := by
  rw [noDocOpenerInBlock_append, Bool.and_eq_true] at h
  exact run_exclusive ls initParser rfl h.1

/-- Witness for C2 (amended) on the run `/* a`, `x */` stopped after its
first line. -/
theorem C2_flags_exclusive_guarded_witness :
    noDocOpenerInBlock initParser (["/* a".data] ++ ["x */".data]) = true ∧
    flagsExclusive (parse_lines initParser ["/* a".data]) = true :=
  ⟨by decide, C2_flags_exclusive_guarded ["/* a".data] ["x */".data] (by decide)⟩

/-- C3: a `/**` line that closes on the same line still sets the doc
flag (the branch at main.cpp:145-149 never searches for `*/`), so the
following code line is miscounted as a doc comment — the same-line
closer check the spec requires, and the parallel `/*` branch at
main.cpp:178 performs, is missing. -/
theorem C3_doc_block_same_line_close :
    (parse_line initParser "/** doc */".data).in_doc_block_comment = true ∧
    (parse_lines initParser ["/** doc */".data, "int x;".data]).doc_comment_lines = 2 ∧
    (parse_lines initParser ["/** doc */".data, "int x;".data]).code_lines = 0 ∧
    (parse_lines initParser ["/** doc */".data, "int x;".data]).in_doc_block_comment = true := by
  decide

/-- C4: every call moves the counter sum up by exactly one, touching each
counter by zero or one; the n_lines field main computes equals both the
number of input lines and the sum of the four per-category counts. -/
theorem C4_exactly_one_verdict (p : CodeParser) (l : List Char) (name : List Char)
    (t : lang_type_e) (lines : List (List Char)) :
    total_count (parse_line p l) = total_count p + 1 ∧
    ((parse_line p l).blank_lines = p.blank_lines ∨
      (parse_line p l).blank_lines = p.blank_lines + 1) ∧
    ((parse_line p l).code_lines = p.code_lines ∨
      (parse_line p l).code_lines = p.code_lines + 1) ∧
    ((parse_line p l).comment_lines = p.comment_lines ∨
      (parse_line p l).comment_lines = p.comment_lines + 1) ∧
    ((parse_line p l).doc_comment_lines = p.doc_comment_lines ∨
      (parse_line p l).doc_comment_lines = p.doc_comment_lines + 1) ∧
    (scan_file name t lines).n_lines = lines.length ∧
    (scan_file name t lines).n_lines =
      (scan_file name t lines).n_blank + (scan_file name t lines).n_comments +
        (scan_file name t lines).n_doc + (scan_file name t lines).n_loc := by
  obtain ⟨s1, s2, s3, s4⟩ := parse_line_counter_step p l
  refine ⟨total_count_parse_line p l, s1, s2, s3, s4, ?_, rfl⟩
  have h := total_count_parse_lines lines initParser
  simpa [total_count, scan_file, initParser] using h

/-- C5: a line scanned in Normal state whose trimmed text does not start
with a comment marker is counted as Code, never as Comment or
DocComment, whatever markers appear later on the line — also when they
sit inside a string literal. -/
theorem C5_code_before_marker (p : CodeParser) (line : List Char)
    (hb : p.in_block_comment = false) (hd : p.in_doc_block_comment = false)
    (hne : trim line ≠ [])
    (h1 : "//".data.isPrefixOf (trim line) = false)
    (h2 : "/*".data.isPrefixOf (trim line) = false) :
    (parse_line p line).code_lines = p.code_lines + 1 ∧
    (parse_line p line).comment_lines = p.comment_lines ∧
    (parse_line p line).doc_comment_lines = p.doc_comment_lines := by
  rw [parse_line_code_branch p line hb hd hne h1 h2]
  exact ⟨rfl, rfl, rfl⟩

/-- Witness for C5 at both lines named by the claim. -/
theorem C5_code_before_marker_witness :
    ((parse_line initParser "int x = 1; // trailing".data).code_lines = 1 ∧
      (parse_line initParser "int x = 1; // trailing".data).comment_lines = 0) ∧
    ((parse_line initParser "auto s = \"// not a comment\";".data).code_lines = 1 ∧
      (parse_line initParser "auto s = \"// not a comment\";".data).comment_lines = 0) := by
  constructor
  · have h := C5_code_before_marker initParser "int x = 1; // trailing".data
      rfl rfl (by decide) (by decide) (by decide)
    exact ⟨h.1, h.2.1⟩
  · have h := C5_code_before_marker initParser "auto s = \"// not a comment\";".data
      rfl rfl (by decide) (by decide) (by decide)
    exact ⟨h.1, h.2.1⟩

/-- C6: a line that trims to nothing bumps only the blank counter and
leaves every other field, the two flags included, untouched — in any
entry state. -/
theorem C6_blank_line (p : CodeParser) (line : List Char) (h : trim line = []) :
    parse_line p line = { p with blank_lines := p.blank_lines + 1 } := by
  simp [parse_line, h]

/-- Witness for C6: a whitespace line inside an open block comment is
counted blank and the flag persists. -/
theorem C6_blank_line_witness :
    parse_line ⟨0, 0, 1, 0, true, false⟩ "   ".data = ⟨1, 0, 1, 0, true, false⟩ := by
  rw [C6_blank_line ⟨0, 0, 1, 0, true, false⟩ "   ".data (by decide)]

/-- C7: the two-line sequence `/* start`, `end */` on a fresh parser
yields two comment lines, no code, opens the block flag on the first
line and closes it on the second. -/
theorem C7_two_line_block_comment :
    (parse_line initParser "/* start".data).comment_lines = 1 ∧
    (parse_line initParser "/* start".data).in_block_comment = true ∧
    (parse_lines initParser ["/* start".data, "end */".data]).comment_lines = 2 ∧
    (parse_lines initParser ["/* start".data, "end */".data]).code_lines = 0 ∧
    (parse_lines initParser ["/* start".data, "end */".data]).in_block_comment = false ∧
    (parse_lines initParser ["/* start".data, "end */".data]).in_doc_block_comment = false := by
  decide

/-- C8: classification is a function of the line sequence alone — equal
sequences fed to fresh parsers produce equal FileInfo records. -/
theorem C8_deterministic (name : List Char) (t : lang_type_e)
    (ls1 ls2 : List (List Char)) (h : ls1 = ls2) :
    scan_file name t ls1 = scan_file name t ls2 := by
  rw [h]

/-- Witness for C8 on a concrete two-line file. -/
theorem C8_deterministic_witness :
    scan_file "a.cpp".data lang_type_e.CPP ["int x;".data, "// c".data] =
      scan_file "a.cpp".data lang_type_e.CPP ["int x;".data, "// c".data] :=
  C8_deterministic "a.cpp".data lang_type_e.CPP _ _ rfl

/-- Three scanned files with comment counts 1, 5 and 3. -/
def fileA : FileInfo := scan_file "a.cpp".data lang_type_e.CPP ["// one".data]

/-- Second file of the fixed sorting example: five comment lines. -/
def fileB : FileInfo := scan_file "b.cpp".data lang_type_e.CPP
  ["// one".data, "// two".data, "// three".data, "// four".data, "// five".data]

/-- Third file of the fixed sorting example: three comment lines. -/
def fileC : FileInfo := scan_file "c.cpp".data lang_type_e.CPP
  ["// one".data, "// two".data, "// three".data]

/-- A file with three comment lines and nothing else: three total lines. -/
def fileD : FileInfo := scan_file "d.cpp".data lang_type_e.CPP
  ["// one".data, "// two".data, "// three".data]

/-- A file with one comment line and three code lines: four total lines,
so the total order and the comment order disagree. -/
def fileE : FileInfo := scan_file "e.cpp".data lang_type_e.CPP
  ["// one".data, "int a;".data, "int b;".data, "int c;".data]

/-- C9: sorting the fixed three-file list by comment count gives 1,3,5
ascending and 5,3,1 descending; the total-lines key compares the summed
n_lines field, so a file with fewer comments but more lines overall
sorts after under the comment key yet before under the total key. -/
theorem C9_sorting :
    ((sort_files [fileA, fileB, fileC] (true, 'c')).map FileInfo.n_comments = [1, 3, 5]) ∧
    ((sort_files [fileA, fileB, fileC] (false, 'c')).map FileInfo.n_comments = [5, 3, 1]) ∧
    (∀ a b : FileInfo, file_comp true 'a' a b = decide (a.n_lines < b.n_lines)) ∧
    (∀ a b : FileInfo, file_comp false 'a' a b = decide (b.n_lines < a.n_lines)) ∧
    ((sort_files [fileD, fileE] (true, 'a')).map FileInfo.n_lines = [3, 4]) ∧
    ((sort_files [fileD, fileE] (true, 'c')).map FileInfo.n_lines = [4, 3]) := by
  refine ⟨by decide, by decide, fun a b => rfl, fun a b => rfl, by decide, by decide⟩

/-- C10: a line opening with code keeps the parser in Normal state even
when a block-comment opener appears later on it — neither flag is set
and the line is counted as code. -/
theorem C10_midline_opener (p : CodeParser) (line : List Char)
    (hb : p.in_block_comment = false) (hd : p.in_doc_block_comment = false)
    (hne : trim line ≠ [])
    (h1 : "//".data.isPrefixOf (trim line) = false)
    (h2 : "/*".data.isPrefixOf (trim line) = false)
    (_hmid : hasSub "/*".data (trim line) = true) :
    parse_line p line = { p with code_lines := p.code_lines + 1 } ∧
    (parse_line p line).in_block_comment = false ∧
    (parse_line p line).in_doc_block_comment = false := by
  have e := parse_line_code_branch p line hb hd hne h1 h2
  refine ⟨e, ?_, ?_⟩
  · rw [e]; exact hb
  · rw [e]; exact hd

/-- Witness for C10 at the line named by the claim. -/
theorem C10_midline_opener_witness :
    parse_line initParser "int x; /* comment".data = ⟨0, 1, 0, 0, false, false⟩ ∧
    (parse_line initParser "int x; /* comment".data).in_block_comment = false := by
  have h := C10_midline_opener initParser "int x; /* comment".data
    rfl rfl (by decide) (by decide) (by decide) (by decide)
  exact ⟨h.1, h.2.1⟩

end Sloc
